import Mathlib

/-!
Verification of the SQL data-access layer of the Discord-Website-Uptime-Bot
repository (src/DiscordBot/src/code_logic/sql/).  Python code is shallowly
embedded: dynamically typed scalar/collection values become the `PyVal` type,
stateful classes become explicit state records, and fallible operations return
`Except`-style results.  Each definition is translated from the named source
function; sqlite itself and the Python standard library are external
collaborators and are modelled where a definition says so.
-/

/-! ## String utilities

Python's `needle in haystack` substring test, modelled on character lists. -/

/-- Model of Python prefix matching: `startsWithChars h n` is true when the
character list `n` is an initial segment of `h`. -/
def startsWithChars : List Char → List Char → Bool
  | _, [] => true
  | [], _ :: _ => false
  | a :: as, b :: bs => a == b && startsWithChars as bs

/-- Model of Python's `needle in haystack` for strings: `containsChars n h`
is true when `n` occurs contiguously inside `h`. -/
def containsChars (needle : List Char) : List Char → Bool
  | [] => startsWithChars [] needle
  | c :: t => startsWithChars (c :: t) needle || containsChars needle t

/-- `pyIn needle hay` models the Python expression `needle in hay` on `str`. -/
def pyIn (needle hay : String) : Bool :=
  containsChars needle.toList hay.toList

/-! ## Python runtime values

`PyVal` models the dynamically typed values handled by the SQL layer:
`None`, `str`, `int`, `float`, `list`, and any other object (`vOther`,
for example a `dict`).  The list payload is the mutually inductive `PyList`
so that every recursive function below is structural and kernel-reducible.
A float is carried by its `str()` rendering, since the layer only ever
stringifies or passes floats through.  -/

mutual

inductive PyVal : Type where
  | vNone : PyVal
  | vStr (s : String) : PyVal
  | vInt (n : Int) : PyVal
  | vFloat (r : String) : PyVal
  | vList (l : PyList) : PyVal
  | vOther : PyVal

inductive PyList : Type where
  | nil : PyList
  | cons (head : PyVal) (tail : PyList) : PyList

end

/-- Convert an ordinary Lean list into the embedded `PyList`. -/
def pyListOf : List PyVal → PyList
  | [] => .nil
  | x :: xs => .cons x (pyListOf xs)

/-- Convert the embedded `PyList` back into an ordinary Lean list. -/
def PyList.toList : PyList → List PyVal
  | .nil => []
  | .cons x xs => x :: xs.toList

/-- Shorthand building a Python list value from a Lean list. -/
def pv (l : List PyVal) : PyVal := .vList (pyListOf l)

/-- Model of Python `str(x)` for the values this layer stringifies: `None`,
`str`, `int` and `float` (a float carries its rendering).  The renderings of
lists and other objects are abstract placeholders: no settled claim evaluates
`str` on those. -/
def pyStr : PyVal → String
  | .vNone => "None"
  | .vStr s => s
  | .vInt n => toString n
  | .vFloat r => r
  | .vList _ => "[...]"
  | .vOther => "<object>"

/-- Model of Python truthiness (`if not line:`) for the values above.  A float
is falsy when it renders as `0.0` or `-0.0` (`str(0.0)`/`str(-0.0)`); `vOther`
is treated as truthy, matching generic objects. -/
def pyFalsy : PyVal → Bool
  | .vNone => true
  | .vStr s => s == ""
  | .vInt n => n == 0
  | .vFloat r => r == "0.0" || r == "-0.0"
  | .vList l => match l with | .nil => true | .cons _ _ => false
  | .vOther => false

/-! ## InjectionGuard (sql_injection.py, class SQLInjection)

Fixed pattern lists from `SQLInjection.__init__`. -/

/-- `self.symbols` from `SQLInjection.__init__`. -/
def injSymbols : List String := [";", "--", "/*", "*/"]

/-- `self.keywords` from `SQLInjection.__init__`. -/
def injKeywords : List String :=
  ["SELECT", "INSERT", "UPDATE", "DELETE",
   "DROP", "CREATE", "ALTER", "TABLE", "UNION", "JOIN", "WHERE"]

/-- `self.logic_gates` from `SQLInjection.__init__`. -/
def injLogicGates : List String := ["OR", "AND", "NOT"]

/-- `self.all` from `SQLInjection.__init__`: keywords, then symbols, then the
keywords again (the source extends with `keywords` twice). -/
def injAll : List String := injKeywords ++ injSymbols ++ injKeywords

/-- Characters of the standard base64 alphabet (excluding padding). -/
def isBase64Char (c : Char) : Bool :=
  c.isAlpha || c.isDigit || c == '+' || c == '/'

/-- Model of `SQLInjection._is_base64`, i.e. of CPython's
`base64.b64decode(s, validate=True)` succeeding.  With `validate=True` the
input must consist of alphabet characters followed by at most two `=` pads,
and with `d` data characters and `p` pads decoding succeeds exactly when
`d % 4 = 0` (with `p = 0` allowed only alongside, and any `p ≤ 2` accepted
when `d > 0`), or `d % 4 = 2 ∧ p = 2`, or `d % 4 = 3 ∧ p = 1` (behaviour
confirmed against CPython's `base64`/`binascii`). -/
def isBase64 (s : String) : Bool :=
  (s.toList.dropWhile isBase64Char).all (· == '=') &&
  decide ((s.toList.dropWhile isBase64Char).length ≤ 2) &&
  (((s.toList.takeWhile isBase64Char).length % 4 == 0 &&
      ((s.toList.dropWhile isBase64Char).length == 0 ||
        decide (0 < (s.toList.takeWhile isBase64Char).length))) ||
   ((s.toList.takeWhile isBase64Char).length % 4 == 2 &&
      (s.toList.dropWhile isBase64Char).length == 2) ||
   ((s.toList.takeWhile isBase64Char).length % 4 == 3 &&
      (s.toList.dropWhile isBase64Char).length == 1))

/-- String-level body of `check_if_symbol_sql_injection` (lines 100-110):
a `;base64` substring short-circuits to `_is_base64`, otherwise any symbol
occurrence is flagged. -/
def symbolCheckStr (s : String) : Bool :=
  if pyIn ";base64" s then isBase64 s
  else injSymbols.any (fun sym => pyIn sym s)

/-- String-level body of `check_if_command_sql_injection` (lines 140-148). -/
def commandCheckStr (s : String) : Bool :=
  injKeywords.any (fun k => pyIn k s)

/-- String-level body of `check_if_logic_gate_sql_injection` (lines 174-182). -/
def logicGateCheckStr (s : String) : Bool :=
  injLogicGates.any (fun k => pyIn k s)

/-- String-level body of `check_if_sql_injection` (lines 256-261): the same
`;base64` short-circuit, otherwise scan `self.all`. -/
def allCheckStr (s : String) : Bool :=
  if pyIn ";base64" s then isBase64 s
  else injAll.any (fun k => pyIn k s)

mutual

/-- `SQLInjection.check_if_symbol_sql_injection`: `None` is safe, lists are
scanned recursively, `str`/`int`/`float` are stringified and checked, any
other object is flagged dangerous. -/
def checkIfSymbolSqlInjection : PyVal → Bool
  | .vNone => false
  | .vList l => checkSymbolList l
  | .vStr s => symbolCheckStr s
  | .vInt n => symbolCheckStr (toString n)
  | .vFloat r => symbolCheckStr r
  | .vOther => true

/-- List scan of `check_if_symbol_sql_injection` (first hit wins). -/
def checkSymbolList : PyList → Bool
  | .nil => false
  | .cons x xs => checkIfSymbolSqlInjection x || checkSymbolList xs

end

mutual

/-- `SQLInjection.check_if_command_sql_injection` (the source tests the list
case before the `None` case; the two orders agree). -/
def checkIfCommandSqlInjection : PyVal → Bool
  | .vList l => checkCommandList l
  | .vNone => false
  | .vStr s => commandCheckStr s
  | .vInt n => commandCheckStr (toString n)
  | .vFloat r => commandCheckStr r
  | .vOther => true

/-- List scan of `check_if_command_sql_injection`. -/
def checkCommandList : PyList → Bool
  | .nil => false
  | .cons x xs => checkIfCommandSqlInjection x || checkCommandList xs

end

mutual

/-- `SQLInjection.check_if_logic_gate_sql_injection`. -/
def checkIfLogicGateSqlInjection : PyVal → Bool
  | .vNone => false
  | .vList l => checkLogicGateList l
  | .vStr s => logicGateCheckStr s
  | .vInt n => logicGateCheckStr (toString n)
  | .vFloat r => logicGateCheckStr r
  | .vOther => true

/-- List scan of `check_if_logic_gate_sql_injection`. -/
def checkLogicGateList : PyList → Bool
  | .nil => false
  | .cons x xs => checkIfLogicGateSqlInjection x || checkLogicGateList xs

end

/-- `SQLInjection.check_if_symbol_and_command_injection`. -/
def checkIfSymbolAndCommandInjection (v : PyVal) : Bool :=
  checkIfSymbolSqlInjection v || checkIfCommandSqlInjection v

mutual

/-- `SQLInjection.check_if_sql_injection`: unlike the symbol/command checks,
only `str` inputs are stringless-checked — an `int`, `float` or other object
falls into the final `else` branch and is flagged dangerous. -/
def checkIfSqlInjection : PyVal → Bool
  | .vNone => false
  | .vList l => checkAllList l
  | .vStr s => allCheckStr s
  | .vInt _ => true
  | .vFloat _ => true
  | .vOther => true

/-- List scan of `check_if_sql_injection`. -/
def checkAllList : PyList → Bool
  | .nil => false
  | .cons x xs => checkIfSqlInjection x || checkAllList xs

end

mutual

/-- `SQLInjection.check_if_injections_in_strings`: `None` is safe; a list is
scanned element-wise (sublists recurse, non-strings are flagged, strings go
through `check_if_sql_injection`); a top-level `str`/`int`/`float` is
stringified and checked; anything else falls into the final branch which
logs and returns `False`. -/
def checkIfInjectionsInStrings : PyVal → Bool
  | .vNone => false
  | .vList l => scanStringsList l
  | .vStr s => checkIfSqlInjection (.vStr s)
  | .vInt n => checkIfSqlInjection (.vStr (toString n))
  | .vFloat r => checkIfSqlInjection (.vStr r)
  | .vOther => false

/-- Element scan of `check_if_injections_in_strings`: sublists recurse via
the full function, any non-string element returns `True` immediately, and a
string element is checked with `check_if_sql_injection`. -/
def scanStringsList : PyList → Bool
  | .nil => false
  | .cons x xs =>
    match x with
    | .vList l => checkIfInjectionsInStrings (.vList l) || scanStringsList xs
    | .vStr s => checkIfSqlInjection (.vStr s) || scanStringsList xs
    | _ => true

end

/-! ## Spec-side predicate for claim C7

A "bad leaf" in the claim's sense: a value that is neither a string nor a
number (so `None`, or any other object such as a `dict`); a list has a bad
leaf when some element, at any depth, is one. -/

mutual

/-- The value is, or contains (through nested lists), a leaf that is neither
a string nor a number. -/
def pyHasBadLeaf : PyVal → Bool
  | .vNone => true
  | .vOther => true
  | .vList l => pyListHasBadLeaf l
  | .vStr _ => false
  | .vInt _ => false
  | .vFloat _ => false

/-- Some element of the list has (or is) a bad leaf. -/
def pyListHasBadLeaf : PyList → Bool
  | .nil => false
  | .cons x xs => pyHasBadLeaf x || pyListHasBadLeaf xs

end

/-! ## Sanitizer (sql_sanitisation_functions.py, class SQLSanitiseFunctions)

The risky-keyword configuration lives in the module `sql_constants`
(imported as `SCONST`), which is not part of the source tree given here, so
the keyword list is a parameter `risky` of each definition. -/

/-- Model of Python `str.lower()` (character-wise; the compared tokens are
all ASCII). -/
def strLower (s : String) : String := String.mk (s.toList.map Char.toLower)

/-- Split a character list at the first occurrence of `c`
(Python `item.split(c, maxsplit=1)` when `c in item`). -/
def splitFirstChar (c : Char) : List Char → Option (List Char × List Char)
  | [] => none
  | x :: xs =>
    if x == c then some ([], xs)
    else
      match splitFirstChar c xs with
      | none => none
      | some (a, b) => some (x :: a, b)

/-- `SQLSanitiseFunctions.escape_risky_column_names`, one item: a `key=value`
item has its key wrapped in backticks when the lower-cased key is risky; a
plain item is wrapped whole when risky; anything else passes through. -/
def escapeRiskyColumnName (risky : List String) (item : String) : String :=
  match splitFirstChar '=' item.toList with
  | some (k, v) =>
    if risky.contains (strLower (String.mk k)) then
      "`" ++ String.mk k ++ "`=" ++ String.mk v
    else item
  | none =>
    if risky.contains (strLower item) then "`" ++ item ++ "`" else item

/-- `SQLSanitiseFunctions.escape_risky_column_names` over a list of column
names (the source mutates the list in place and returns it; the net effect
is an element-wise map). -/
def escapeRiskyColumnNames (risky : List String) (columns : List String) : List String :=
  columns.map (escapeRiskyColumnName risky)

/-- Result type of `SQLSanitiseFunctions.beautify_table`: the numeric error
code or the reshaped rows (each a name-keyed record, modelled as an
association list in insertion order). -/
inductive BeautifyResult : Type where
  | errCode (n : Int) : BeautifyResult
  | rows (t : List (List (String × PyVal))) : BeautifyResult

/-- One row of `beautify_table` (lines 275-282): walk the column descriptors
(`items[0]` is the column name), stopping as soon as the row is exhausted
(`if index == cell_length: break`), so the record has one entry per cell of
the row, up to the number of columns. -/
def beautifyRecord : List (String × List String) → List PyVal → List (String × PyVal)
  | [], _ => []
  | _ :: _, [] => []
  | c :: cs, x :: xs => (c.1, x) :: beautifyRecord cs xs

/-- `SQLSanitiseFunctions.beautify_table`: the error code when the column
list or the content is empty, otherwise one record per raw row.  A column
descriptor is its name plus the remaining fields, as produced by
`describe_table`. -/
def beautifyTable (err : Int) (columnNames : List (String × List String))
    (tableContent : List (List PyVal)) : BeautifyResult :=
  if columnNames.length == 0 then .errCode err
  else if tableContent.length == 0 then .errCode err
  else .rows (tableContent.map (beautifyRecord columnNames))

/-- `SQLQueryBoilerplates._normalize_cell`: `None` and numbers pass through;
other values are stringified, the markers `now`/`now()` and
`current_date`/`current_date()` (case-insensitive) become the formatted
current timestamp/date (supplied here as the parameters `now`/`today`,
since `SQLTimeManipulation` reads the wall clock), and anything else remains
its string form. -/
def normalizeCell (now today : String) : PyVal → PyVal
  | .vNone => .vNone
  | .vInt n => .vInt n
  | .vFloat r => .vFloat r
  | c =>
    if strLower (pyStr c) == "now" || strLower (pyStr c) == "now()" then .vStr now
    else if strLower (pyStr c) == "current_date" ||
        strLower (pyStr c) == "current_date()" then .vStr today
    else .vStr (pyStr c)

/-! ## Parameterized DML builders (sql_query_boilerplates.py)

`insert_data_into_table` and `update_data_in_table` build a statement whose
value slots are `?` placeholders and collect the normalized cell values in a
separate parameter list. -/

/-- Row-cell extraction in `insert_data_into_table` (lines 425-434) and
`insert_or_update_data_into_table` (lines 841-849): a list is its own cells,
a string becomes a one-cell row, and any other scalar ends up as a one-cell
row via the `TypeError` fallback. -/
def lineVals : PyVal → List PyVal
  | .vList l => l.toList
  | x => [x]

/-- The per-row parameter vector (lines 435-444 / 723-736): one normalized
cell per column, reading the row at each index and padding with `None`. -/
def buildRowVals (now today : String) (colLen : Nat) (vals : List PyVal) : List PyVal :=
  (List.range colLen).map (fun i => normalizeCell now today (vals.getD i .vNone))

/-- One `(?, ?, ..., ?)` placeholder group with `colLen` slots
(lines 445-446 / 461). -/
def placeholderGroup (colLen : Nat) : String :=
  "(" ++ String.intercalate ", " (List.replicate colLen "?") ++ ")"

/-- A built statement: the SQL text handed to the connection layer plus the
parameter list meant to be bound to its `?` placeholders. -/
structure BuiltQuery : Type where
  sql : String
  params : List PyVal

/-- The sanitized, comma-joined column list used in the INSERT text
(lines 407-416). -/
def insertColumnStr (risky : List String) (column : List String) : String :=
  String.intercalate ", " (escapeRiskyColumnNames risky column)

/-- Query construction of `SQLQueryBoilerplates.insert_data_into_table`
(lines 400-470), after the injection gate and with the column list already
resolved: a list-of-lists input takes the multi-row path (one placeholder
group per row), any other list takes the single-row path, and a non-list
input is the error branch (`none`). -/
def buildInsert (risky : List String) (now today table : String)
    (column : List String) (data : PyVal) : Option BuiltQuery :=
  match data with
  | .vList l =>
    match l.toList with
    | [] =>
      some ⟨"INSERT INTO " ++ table ++ " (" ++ insertColumnStr risky column ++
              ") VALUES " ++ placeholderGroup column.length,
            buildRowVals now today column.length []⟩
    | first :: rest =>
      match first with
      | .vList _ =>
        some ⟨"INSERT INTO " ++ table ++ " (" ++ insertColumnStr risky column ++
                ") VALUES " ++
                String.intercalate ", "
                  ((first :: rest).map (fun _ => placeholderGroup column.length)),
              ((first :: rest).map
                  (fun line => buildRowVals now today column.length (lineVals line))).flatten⟩
      | _ =>
        some ⟨"INSERT INTO " ++ table ++ " (" ++ insertColumnStr risky column ++
                ") VALUES " ++ placeholderGroup column.length,
              buildRowVals now today column.length (first :: rest)⟩
  | _ => none

/-- Query construction of `SQLQueryBoilerplates.update_data_in_table`
(lines 692-744) with the column list resolved and `whereClause` the already
sanitized predicate text (the predicate sanitizer transforms the `where`
argument only, never the row values): a `SET col = ?` item per sanitized
column, parameters from the data row padded with `None`. -/
def buildUpdate (risky : List String) (now today table : String)
    (column : List String) (whereClause : String) (data : List PyVal) : BuiltQuery :=
  ⟨"UPDATE " ++ table ++ " SET " ++
     String.intercalate ", "
       ((escapeRiskyColumnNames risky column).map (fun c => c ++ " = ?")) ++
     (if whereClause == "" then "" else " WHERE " ++ whereClause),
   buildRowVals now today (escapeRiskyColumnNames risky column).length data⟩

/-! ## Python call binding at the boilerplate/connection boundary

`sql_query_boilerplates.py` hands built statements to the connection manager
with a `values` argument (`run_editing_command(sql_query, values_list, table,
"insert")`, lines 471/746; `run_and_commit(query=..., values=[])`;
`run_and_fetch_all(query=..., values=[])`), but the `SQLManageConnections`
defined in `sql_connections.py` declares `run_editing_command(self,
sql_query, table, action_type="update")` (line 529), `run_and_commit(self,
query, cursor=None)` (line 289) and `run_and_fetch_all(self, query,
cursor=None)` (line 405).  Python call binding is modelled to settle what
happens at that boundary. -/

/-- Python positional binding: a call with `argCount` positional arguments
binds against `paramCount` declared parameters of which the last
`defaultCount` have defaults; otherwise the call raises `TypeError`. -/
def pyBindPositional (paramCount defaultCount argCount : Nat) : Bool :=
  decide (argCount ≤ paramCount) && decide (paramCount - defaultCount ≤ argCount)

/-- Whether `SQLManageConnections.run_editing_command` (parameters
`sql_query`, `table`, `action_type="update"`) accepts a call with
`argCount` positional arguments. -/
def runEditingCommandAccepts (argCount : Nat) : Bool :=
  pyBindPositional 3 1 argCount

/-- Python keyword binding: every keyword name must match a declared
parameter name; otherwise the call raises `TypeError`. -/
def pyBindKeywordNames (paramNames kwargNames : List String) : Bool :=
  kwargNames.all (paramNames.contains ·)

/-- Declared parameter names of `run_and_fetch_all` (after `self`). -/
def runAndFetchAllParamNames : List String := ["query", "cursor"]

/-- Keyword names used by the boilerplates when calling `run_and_fetch_all`. -/
def fetchCallKwargs : List String := ["query", "values"]

/-- Outcome of a DML operation at the boilerplate/connection boundary. -/
inductive DmlOutcome : Type where
  | executed (sql : String) (boundValues : List PyVal) : DmlOutcome
  | typeError : DmlOutcome
  | refused : DmlOutcome

/-- `SQLQueryBoilerplates.insert_data_into_table` end to end: injection gate
on table and column names, query construction, then the delegation
`run_editing_command(sql_query, values_list, table, "insert")` — four
positional arguments against the three declared parameters. -/
def insertDataIntoTable (risky : List String) (now today table : String)
    (column : List String) (data : PyVal) : DmlOutcome :=
  if checkIfInjectionsInStrings (pv (.vStr table :: column.map .vStr)) then .refused
  else
    match buildInsert risky now today table column data with
    | none => .refused
    | some q =>
      if runEditingCommandAccepts 4 then .executed q.sql q.params else .typeError

/-- `SQLQueryBoilerplates.update_data_in_table` end to end, analogously
(`run_editing_command(sql_query, params, table, "update")`, line 746). -/
def updateDataInTable (risky : List String) (now today table : String)
    (column : List String) (whereClause : String) (data : List PyVal) : DmlOutcome :=
  if checkIfInjectionsInStrings (pv (.vStr table :: column.map .vStr)) ||
      checkIfSymbolAndCommandInjection (.vStr whereClause) then .refused
  else
    if runEditingCommandAccepts 4 then
      .executed (buildUpdate risky now today table column whereClause data).sql
        (buildUpdate risky now today table column whereClause data).params
    else .typeError

/-! ## ConnectionManager error handling (sql_connections.py)

`run_and_commit` (lines 289-403) and `run_and_fetch_all` (lines 405-527)
are modelled as functions of whether the caller supplied a cursor and of the
outcome of the execute/fetch step against the engine (sqlite is external;
its failure is one of the four classified exception classes carrying a
message). -/

/-- The four sqlite exception classes distinguished by the source. -/
inductive SqliteErrClass : Type where
  | programming : SqliteErrClass
  | integrity : SqliteErrClass
  | operational : SqliteErrClass
  | generic : SqliteErrClass

/-- The `RuntimeError` message built by each handler (identical text in
`run_and_commit` and `run_and_fetch_all`): bucket label plus the original
engine message. -/
def engineErrMsg : SqliteErrClass → String → String
  | .programming, m =>
    "ProgrammingError: Failed to execute the query. Original error: " ++ m
  | .integrity, m =>
    "IntegrityError: Integrity constraint issue occurred during query execution. Original error: " ++ m
  | .operational, m =>
    "OperationalError: Operational error occurred during query execution. Original error: " ++ m
  | .generic, m =>
    "SQLite Error: An unexpected error occurred during query execution. Original error: " ++ m

/-- Outcome of the execute/fetch step inside `run_and_fetch_all`: rows
fetched, an invalid cursor (`description is None`), or an engine exception. -/
inductive ExecOutcome : Type where
  | success (rows : List (List PyVal)) : ExecOutcome
  | noDescription : ExecOutcome
  | raised (c : SqliteErrClass) (m : String) : ExecOutcome

/-- `SQLManageConnections.run_and_commit`: success returns the success code;
every one of the four exception handlers raises `RuntimeError` with the
classified message, on the owned-cursor path (`cursorProvided = false`) and
the caller-supplied-cursor path alike (the paths differ only in cursor
release). -/
def runAndCommitModel (cursorProvided : Bool) (outcome : Option (SqliteErrClass × String)) :
    Except String Int :=
  match outcome with
  | none => .ok 0
  | some (c, m) =>
    match cursorProvided with
    | true => .error (engineErrMsg c m)
    | false => .error (engineErrMsg c m)

/-- Python-level result of `run_and_fetch_all`: the fetched rows, the
numeric error sentinel, or Python `None` (the implicit return when control
falls off the end of the function). -/
inductive FetchRet : Type where
  | gotRows (rows : List (List PyVal)) : FetchRet
  | errSentinel (code : Int) : FetchRet
  | pyNone : FetchRet

/-- `SQLManageConnections.run_and_fetch_all`: the `ProgrammingError` and
`OperationalError` handlers raise on both cursor paths, but in the
`IntegrityError` handler (lines 486-499) and the generic `sqlite3.Error`
handler (lines 514-527) the `raise` statement sits inside the
`else:` (caller-supplied cursor) branch — on the owned-cursor path those two
handlers only log and release, and the function returns `None`. -/
def runAndFetchAllModel (cursorProvided : Bool) (outcome : ExecOutcome) :
    Except String FetchRet :=
  match outcome with
  | .success rows => .ok (.gotRows rows)
  | .noDescription => .ok (.errSentinel 84)
  | .raised .programming m => .error (engineErrMsg .programming m)
  | .raised .operational m => .error (engineErrMsg .operational m)
  | .raised .integrity m =>
    if cursorProvided then .error (engineErrMsg .integrity m) else .ok .pyNone
  | .raised .generic m =>
    if cursorProvided then .error (engineErrMsg .generic m) else .ok .pyNone

/-! ## Connection teardown (destroy_pool, SQL.close) and the facade -/

/-- State of `SQLManageConnections`: the owned connection handle or `None`. -/
structure ConnMgrState : Type where
  connection : Option Unit

/-- `SQLManageConnections.destroy_pool` (lines 240-262): when a connection is
stored, close it (a `sqlite3.Error` from the close is caught and ignored,
hence the `closeRaises` flag is irrelevant) and clear the handle; either way
return the success code.  It never raises. -/
def destroyPool (closeRaises : Bool) (s : ConnMgrState) : Except String (ConnMgrState × Int) :=
  match s.connection with
  | some _ =>
    match closeRaises with
    | true => .ok (⟨none⟩, 0)
    | false => .ok (⟨none⟩, 0)
  | none => .ok (⟨none⟩, 0)

/-- State of the `SQL` facade (sql_manager.py): the three helper references
that `__init__` creates, `create` completes, and `close` clears. -/
structure SQLFacade : Type where
  sqlManageConnections : Option ConnMgrState
  sqlQueryBoilerplates : Option Unit
  sqlTimeManipulation : Option Unit

/-- Facade state right after the synchronous constructor `SQL.__init__`:
the connection manager exists but is unconnected, and
`sql_query_boilerplates` is `None` (line 93). -/
def sqlFacadeInit : SQLFacade := ⟨some ⟨none⟩, none, some ()⟩

/-- Facade state after `SQL.create` succeeds: pool initialised and the
boilerplates bound (lines 703-712). -/
def sqlFacadeReady : SQLFacade := ⟨some ⟨some ()⟩, some (), some ()⟩

/-- Facade state after `SQL.close`: all three references cleared
(lines 724-727). -/
def sqlFacadeClosed : SQLFacade := ⟨none, none, none⟩

/-- `SQL.create` (lines 688-712): on pool-initialisation failure it raises;
on success the boilerplates are bound. -/
def sqlCreateModel (poolInitOk : Bool) : Except String SQLFacade :=
  if poolInitOk then .ok sqlFacadeReady
  else .error "Error: Failed to initialise the connection pool."

/-- `SQL.close` (lines 714-727): `destroy_pool` is attempted when a manager
is present and any exception from it is caught (`except Exception`); all
references are then cleared.  It never raises, regardless of `closeRaises`. -/
def sqlCloseModel (closeRaises : Bool) (f : SQLFacade) : Except String SQLFacade :=
  match f.sqlManageConnections with
  | some _ =>
    match closeRaises with
    | true => .ok sqlFacadeClosed
    | false => .ok sqlFacadeClosed
  | none => .ok sqlFacadeClosed

/-- The wrapped data operations exposed by the facade (each wrapper shares
the same two-line guard). -/
inductive DataOp : Type where
  | createTable | createTrigger | getTableColumnNames | getTableNames
  | getTriggers | getTrigger | getTriggerNames | describeTable
  | insertTrigger | insertData | getDataFromTable | getTableSize
  | updateData | insertOrUpdateData | insertOrUpdateTrigger
  | removeDataFromTable | dropDataFromTable | removeTable | dropTable
  | removeTrigger | dropTrigger

/-- The distinguished message of `SQL._runtime_error_string` (line 36). -/
def runtimeErrorString : String := "SQLQueryBoilerplates method not initialized"

/-- Result of invoking a facade data operation: the raised error or the
delegated result, plus the statements that reached the engine. -/
structure FacadeCallResult : Type where
  outcome : Except String Unit
  engineQueries : List String

/-- The uniform wrapper body shared by every data operation of `SQL`
(e.g. lines 425-427): when `sql_query_boilerplates` is `None`, raise
`RuntimeError(self._runtime_error_string)` without touching the engine;
otherwise delegate (the delegate's engine traffic is abstract). -/
def facadeInvoke (f : SQLFacade) (op : DataOp) (delegate : DataOp → List String) :
    FacadeCallResult :=
  match f.sqlQueryBoilerplates with
  | none => ⟨.error runtimeErrorString, []⟩
  | some _ => ⟨.ok (), delegate op⟩

/-! ## Upsert (insert_or_update_data_into_table, lines 773-889)

The batch path keys a dict by the stringified first column of each fetched
row; both paths then delegate each row to `update_data_in_table` /
`insert_data_into_table`.  Those delegations — and the initial fetch itself
(`get_data_from_table` → `run_and_fetch_all(query=..., values=[])`) — hit
the connection-layer signature skew established above, so each call's
Python-level outcome is modelled, uncaught exceptions included. -/

/-- `str(line[0])`, the stringified first column used as the row's identity
key (fetched rows are non-empty in practice; the default covers totality). -/
def rowKey (r : List PyVal) : String := pyStr (r.headD .vNone)

/-- Python dict assignment on an association list: replace the binding if
the key is present, append otherwise. -/
def assocSet : List (String × List PyVal) → String → List PyVal →
    List (String × List PyVal)
  | [], k, v => [(k, v)]
  | (k', v') :: t, k, v =>
    if k' == k then (k, v) :: t else (k', v') :: assocSet t k v

/-- `table_content_dict` (lines 832-834): one dict entry per fetched row,
keyed by the stringified first column. -/
def buildContentDict (rows : List (List PyVal)) : List (String × List PyVal) :=
  rows.foldl (fun m line => assocSet m (rowKey line) line) []

/-- Python `key in dict`. -/
def dictContains (m : List (String × List PyVal)) (k : String) : Bool :=
  m.any (fun p => p.1 == k)

/-- Python-level outcome of the upsert and of its per-row delegations: an
uncaught `TypeError` (nothing executed against the engine), or a returned
status code. -/
inductive UpsertOutcome : Type where
  | typeError : UpsertOutcome
  | returned (code : Int) : UpsertOutcome

/-- What a per-row `update_data_in_table` / `insert_data_into_table` call
gives back to the upsert: a refusal is the callee's returned error code, a
`TypeError` at the `run_editing_command` handoff propagates uncaught, and
`engineStatus` is the code the connection layer would report if a statement
were ever executed — at these four-positional-argument call sites the
`executed` outcome is unreachable (`insertDataIntoTable_never_executes`), so
the parameter is never consulted. -/
def dmlCallStatus (engineStatus : Int) : DmlOutcome → UpsertOutcome
  | .refused => .returned 84
  | .typeError => .typeError
  | .executed _ _ => .returned engineStatus

/-- One non-falsy iteration of the batch loop (lines 850-862): stringify the
row's first cell, look it up in the dict, and delegate to
`update_data_in_table(table, line_list, columns, f"{columns[0]} = {node0}")`
on a hit or `insert_data_into_table(table, line_list, cols)` on a miss (the
column list is non-empty in practice; the default covers totality). -/
def upsertRowCall (engineStatus : Int) (risky : List String)
    (now today table : String) (cols : List String)
    (dict : List (String × List PyVal)) (line : PyVal) : UpsertOutcome :=
  if dictContains dict (pyStr ((lineVals line).headD .vNone)) then
    dmlCallStatus engineStatus
      (updateDataInTable risky now today table cols
        (cols.headD "" ++ " = " ++ pyStr ((lineVals line).headD .vNone))
        (lineVals line))
  else
    dmlCallStatus engineStatus
      (insertDataIntoTable risky now today table cols (pv (lineVals line)))

/-- The batch loop (lines 836-864): falsy rows are skipped; every other row's
delegation is awaited with its returned status discarded — but an uncaught
`TypeError` from the delegation propagates and aborts the loop; reaching the
end returns the success code. -/
def upsertBatchLoop (engineStatus : Int) (risky : List String)
    (now today table : String) (cols : List String)
    (dict : List (String × List PyVal)) : List PyVal → UpsertOutcome
  | [] => .returned 0
  | line :: rest =>
    if pyFalsy line then
      upsertBatchLoop engineStatus risky now today table cols dict rest
    else
      match upsertRowCall engineStatus risky now today table cols dict line with
      | .typeError => .typeError
      | .returned _ => upsertBatchLoop engineStatus risky now today table cols dict rest

/-- `SQLQueryBoilerplates.insert_or_update_data_into_table` with the column
list supplied (lines 787-889): injection gate, then the initial fetch
`get_data_from_table(table, columns, "", beautify=False)` — whose own gate
re-checks the same identifiers plus the empty predicate and whose inner call
is `run_and_fetch_all(query=..., values=[])`: the keyword `values` binds
against no declared parameter, so the call raises `TypeError`.  Only if that
binding succeeded would the engine's current content (`fetchAnswer`) come
back and the dispatch run: the batch loop over the dict built from the
fetched rows, or the single-row path's linear scan, returning the result of
its one delegation. -/
def insertOrUpdateDataIntoTable (engineStatus : Int)
    (fetchAnswer : List (List PyVal)) (risky : List String)
    (now today table : String) (cols : List String) (data : PyVal) :
    UpsertOutcome :=
  if checkIfInjectionsInStrings (pv (.vStr table :: cols.map .vStr)) then
    .returned 84
  else if pyBindKeywordNames runAndFetchAllParamNames fetchCallKwargs then
    match data with
    | .vList l =>
      match l.toList with
      | [] => .returned 0
      | first :: rest =>
        match first with
        | .vList _ =>
          upsertBatchLoop engineStatus risky now today table cols
            (buildContentDict fetchAnswer) (first :: rest)
        | _ =>
          if fetchAnswer.any (fun r => rowKey r == pyStr first) then
            dmlCallStatus engineStatus
              (updateDataInTable risky now today table cols
                (cols.headD "" ++ " = " ++ pyStr first) (first :: rest))
          else
            dmlCallStatus engineStatus
              (insertDataIntoTable risky now today table cols (pv (first :: rest)))
    | _ => .returned 84
  else .typeError

/-! ## Theorems -/

/-- `pyListOf` and `PyList.toList` are inverse. -/
theorem pyListOf_toList (L : List PyVal) : (pyListOf L).toList = L := by
  induction L with
  | nil => rfl
  | cons x xs ih => simp [pyListOf, PyList.toList, ih]

/-- A prefix match puts every character of the needle into the haystack. -/
theorem mem_of_startsWithChars {h n : List Char}
    (hs : startsWithChars h n = true) : ∀ c ∈ n, c ∈ h := by
  induction n generalizing h with
  | nil => intro c hc; exact absurd hc (List.not_mem_nil c)
  | cons b bs ih =>
    cases h with
    | nil => simp [startsWithChars] at hs
    | cons a t =>
      simp only [startsWithChars, Bool.and_eq_true, beq_iff_eq] at hs
      obtain ⟨hab, hrest⟩ := hs
      intro c hc
      rcases List.mem_cons.mp hc with rfl | hc2
      · exact List.mem_cons.mpr (Or.inl hab.symm)
      · exact List.mem_cons.mpr (Or.inr (ih hrest c hc2))

/-- A substring occurrence puts every character of the needle into the
haystack. -/
theorem mem_of_containsChars {n h : List Char}
    (hc : containsChars n h = true) : ∀ c ∈ n, c ∈ h := by
  induction h with
  | nil =>
    intro c hcn
    cases n with
    | nil => exact absurd hcn (List.not_mem_nil c)
    | cons b bs => simp [containsChars, startsWithChars] at hc
  | cons a t ih =>
    simp only [containsChars, Bool.or_eq_true] at hc
    rcases hc with h1 | h2
    · exact mem_of_startsWithChars h1
    · intro c hcn; exact List.mem_cons.mpr (Or.inr (ih h2 c hcn))

/-- A string containing `;` can never pass `_is_base64`: `;` is outside the
base64 alphabet and is not padding. -/
theorem isBase64_false_of_semicolon {s : String} (hm : ';' ∈ s.toList) :
    isBase64 s = false := by
  have hsplit := List.takeWhile_append_dropWhile (p := isBase64Char) (l := s.toList)
  have hm2 : ';' ∈ s.toList.takeWhile isBase64Char ++ s.toList.dropWhile isBase64Char := by
    rw [hsplit]; exact hm
  rcases List.mem_append.mp hm2 with h1 | h2
  · have hchar := List.mem_takeWhile_imp h1
    exact absurd hchar (by decide)
  · cases hall : (s.toList.dropWhile isBase64Char).all (· == '=') with
    | false => simp only [isBase64, hall, Bool.false_and]
    | true =>
      exfalso
      have := List.all_eq_true.mp hall ';' h2
      exact absurd this (by decide)

/-- Claim C3, counterexample: the input `";base64"` contains the `;base64`
marker and is not valid base64 (it contains `;`), so the claim as stated
predicts both checks report it dangerous — yet both report it safe. -/
theorem c3_counterexample :
    checkIfSymbolSqlInjection (.vStr ";base64") = false ∧
    checkIfSqlInjection (.vStr ";base64") = false ∧
    isBase64 ";base64" = false := by
  exact ⟨rfl, rfl, rfl⟩

/-- Claim C3, amended: for every string containing `;base64`, both
`check_if_symbol_sql_injection` and `check_if_sql_injection` return
`_is_base64(input)` — dangerous if and only if the input IS valid base64,
the inverse of the claim — and since `;` is not a base64 character that is
always false: every such input is reported safe. -/
theorem base64_branch_reports_safe (s : String) (h : pyIn ";base64" s = true) :
    checkIfSymbolSqlInjection (.vStr s) = isBase64 s ∧
    checkIfSqlInjection (.vStr s) = isBase64 s ∧
    isBase64 s = false := by
  have hm : ';' ∈ s.toList := mem_of_containsChars h ';' (by decide)
  refine ⟨?_, ?_, isBase64_false_of_semicolon hm⟩
  · simp [checkIfSymbolSqlInjection, symbolCheckStr, h]
  · simp [checkIfSqlInjection, allCheckStr, h]

/-- Witness for the amended C3 theorem at the concrete payload
`"abc;base64def"`. -/
theorem base64_branch_reports_safe_witness :
    pyIn ";base64" "abc;base64def" = true ∧
    checkIfSymbolSqlInjection (.vStr "abc;base64def") = false := by
  refine ⟨by decide, ?_⟩
  have h := base64_branch_reports_safe "abc;base64def" (by decide)
  exact h.1.trans h.2.2

/-- Any list containing, at any nesting depth, a non-string non-number leaf
makes the element scan of `check_if_injections_in_strings` return `True`. -/
theorem scanStrings_of_badLeaf : (l : PyList) → pyListHasBadLeaf l = true →
    scanStringsList l = true
  | .nil, h => by simp [pyListHasBadLeaf] at h
  | .cons x xs, h => by
    simp only [pyListHasBadLeaf, Bool.or_eq_true] at h
    cases x with
    | vNone => simp [scanStringsList]
    | vOther => simp [scanStringsList]
    | vInt n => simp [scanStringsList]
    | vFloat r => simp [scanStringsList]
    | vStr s =>
      rcases h with h1 | h2
      · simp [pyHasBadLeaf] at h1
      · simp [scanStringsList, scanStrings_of_badLeaf xs h2]
    | vList l2 =>
      rcases h with h1 | h2
      · have hb : pyListHasBadLeaf l2 = true := by simpa [pyHasBadLeaf] using h1
        simp [scanStringsList, checkIfInjectionsInStrings,
          scanStrings_of_badLeaf l2 hb]
      · simp [scanStringsList, scanStrings_of_badLeaf xs h2]

/-- Claim C7, counterexample: a top-level input that is neither a string nor
a number (for example a `dict`) reaches the final branch of
`check_if_injections_in_strings`, which logs and returns `False` — not the
`True` the claim requires for the top level. -/
theorem c7_counterexample : checkIfInjectionsInStrings .vOther = false := rfl

/-- Claim C7, amended: for every input that is a list containing, at any
nesting depth, a leaf that is neither a string nor a number, the scanner
returns `True`; but a top-level non-list input that is neither a string nor
a number is not flagged: `None` and unsupported objects return `False`. -/
theorem scanner_fail_closed_inside_lists_only :
    (∀ l : PyList, pyListHasBadLeaf l = true →
      checkIfInjectionsInStrings (.vList l) = true) ∧
    checkIfInjectionsInStrings .vNone = false ∧
    checkIfInjectionsInStrings .vOther = false := by
  refine ⟨?_, rfl, rfl⟩
  intro l h
  simpa [checkIfInjectionsInStrings] using scanStrings_of_badLeaf l h

/-- Witness for the amended C7 theorem: a list holding one `dict`-like leaf
is flagged. -/
theorem scanner_fail_closed_inside_lists_only_witness :
    pyListHasBadLeaf (.cons .vOther .nil) = true ∧
    checkIfInjectionsInStrings (.vList (.cons .vOther .nil)) = true :=
  ⟨rfl, scanner_fail_closed_inside_lists_only.1 (.cons .vOther .nil) rfl⟩

/-- Claim C8: the symbol check fires on each of the four symbols, the
command check fires on each of the eleven keywords, and both are false on
the ordinary word `"gadget"`. -/
theorem injection_detection_coverage :
    checkIfSymbolSqlInjection (.vStr ";") = true ∧
    checkIfSymbolSqlInjection (.vStr "--") = true ∧
    checkIfSymbolSqlInjection (.vStr "/*") = true ∧
    checkIfSymbolSqlInjection (.vStr "*/") = true ∧
    checkIfCommandSqlInjection (.vStr "SELECT") = true ∧
    checkIfCommandSqlInjection (.vStr "INSERT") = true ∧
    checkIfCommandSqlInjection (.vStr "UPDATE") = true ∧
    checkIfCommandSqlInjection (.vStr "DELETE") = true ∧
    checkIfCommandSqlInjection (.vStr "DROP") = true ∧
    checkIfCommandSqlInjection (.vStr "CREATE") = true ∧
    checkIfCommandSqlInjection (.vStr "ALTER") = true ∧
    checkIfCommandSqlInjection (.vStr "TABLE") = true ∧
    checkIfCommandSqlInjection (.vStr "UNION") = true ∧
    checkIfCommandSqlInjection (.vStr "JOIN") = true ∧
    checkIfCommandSqlInjection (.vStr "WHERE") = true ∧
    checkIfSymbolSqlInjection (.vStr "gadget") = false ∧
    checkIfCommandSqlInjection (.vStr "gadget") = false := by
  decide

/-- No call of `insert_data_into_table` can reach the engine with its bound
values: the delegation always passes four positional arguments to the
three-parameter `run_editing_command`. -/
theorem insertDataIntoTable_never_executes (risky : List String)
    (now today table : String) (column : List String) (data : PyVal) :
    ∀ s p, insertDataIntoTable risky now today table column data ≠ .executed s p := by
  intro s p
  simp only [insertDataIntoTable]
  split
  · simp
  · cases hb : buildInsert risky now today table column data with
    | none => simp
    | some q => simp [runEditingCommandAccepts, pyBindPositional]

/-- The SQL text built by the single-row insert path does not depend on the
row's cell values at all (only placeholders stand where values go). -/
theorem buildInsert_single_sql_value_independent (risky : List String)
    (now today table : String) (column : List String)
    (x y : PyVal) (xs ys : List PyVal)
    (hx : ∀ l, x ≠ .vList l) (hy : ∀ l, y ≠ .vList l) :
    (buildInsert risky now today table column (pv (x :: xs))).map (fun q => q.sql) =
    (buildInsert risky now today table column (pv (y :: ys))).map (fun q => q.sql) := by
  cases x with
  | vList l => exact absurd rfl (hx l)
  | vNone => cases y with
    | vList l => exact absurd rfl (hy l)
    | _ => rfl
  | vStr s => cases y with
    | vList l => exact absurd rfl (hy l)
    | _ => rfl
  | vInt n => cases y with
    | vList l => exact absurd rfl (hy l)
    | _ => rfl
  | vFloat r => cases y with
    | vList l => exact absurd rfl (hy l)
    | _ => rfl
  | vOther => cases y with
    | vList l => exact absurd rfl (hy l)
    | _ => rfl

/-- Claim C1 (the code-bug evaluation): at a concrete row the boilerplate
builds a statement whose value slots are `?` placeholders, with the values
in a separate bound-parameter list — but `run_editing_command` accepts at
most three positional arguments while the delegation passes four, so the
call raises `TypeError` and the connection manager never executes the
statement with those bound values. -/
theorem insert_values_bound_but_handoff_type_errors :
    buildInsert [] "2026-10-12 00:00:00.000" "2026-10-12" "websites"
        ["id", "name"] (pv [.vInt 1, .vStr "gadget"]) =
      some ⟨"INSERT INTO websites (id, name) VALUES (?, ?)",
            [.vInt 1, .vStr "gadget"]⟩ ∧
    runEditingCommandAccepts 4 = false ∧
    insertDataIntoTable [] "2026-10-12 00:00:00.000" "2026-10-12" "websites"
        ["id", "name"] (pv [.vInt 1, .vStr "gadget"]) = .typeError ∧
    (updateDataInTable [] "2026-10-12 00:00:00.000" "2026-10-12" "websites"
        ["id", "name"] "id = 1" [.vInt 1, .vStr "gadget-v2"]) = .typeError ∧
    pyBindKeywordNames runAndFetchAllParamNames fetchCallKwargs = false := by
  exact ⟨rfl, rfl, rfl, rfl, rfl⟩

/-- Claim C5 (the code-bug evaluation): inside `run_and_fetch_all` the
`IntegrityError` and generic `sqlite3.Error` handlers re-raise only on the
caller-supplied-cursor path; on the owned-cursor path the exception is
swallowed and the function returns `None`, while `run_and_commit` re-raises
the classified `RuntimeError` on both paths. -/
theorem fetch_swallows_engine_errors_on_owned_cursor :
    runAndFetchAllModel false (.raised .integrity "UNIQUE constraint failed: t.id") =
      .ok .pyNone ∧
    runAndFetchAllModel false (.raised .generic "disk I/O error") = .ok .pyNone ∧
    runAndFetchAllModel true (.raised .integrity "UNIQUE constraint failed: t.id") =
      .error (engineErrMsg .integrity "UNIQUE constraint failed: t.id") ∧
    runAndFetchAllModel false (.raised .programming "bad query") =
      .error (engineErrMsg .programming "bad query") ∧
    runAndFetchAllModel false (.raised .operational "database is locked") =
      .error (engineErrMsg .operational "database is locked") ∧
    runAndCommitModel false (some (.integrity, "UNIQUE constraint failed: t.id")) =
      .error (engineErrMsg .integrity "UNIQUE constraint failed: t.id") ∧
    runAndCommitModel true (some (.generic, "disk I/O error")) =
      .error (engineErrMsg .generic "disk I/O error") := by
  exact ⟨rfl, rfl, rfl, rfl, rfl, rfl, rfl⟩

/-- Claim C4: before the async factory has completed (the constructor state)
and after `close()`, `sql_query_boilerplates` is `None`, so every data
operation raises the distinguished "not initialized" `RuntimeError` and
sends nothing to the engine; `close()` always produces that cleared state. -/
theorem uninitialized_facade_raises_and_runs_nothing :
    sqlFacadeInit.sqlQueryBoilerplates = none ∧
    (∀ b f, sqlCloseModel b f = .ok sqlFacadeClosed) ∧
    (∀ (op : DataOp) (delegate : DataOp → List String),
      facadeInvoke sqlFacadeInit op delegate =
        ⟨.error runtimeErrorString, []⟩) ∧
    (∀ (op : DataOp) (delegate : DataOp → List String),
      facadeInvoke sqlFacadeClosed op delegate =
        ⟨.error runtimeErrorString, []⟩) := by
  refine ⟨rfl, ?_, fun _ _ => rfl, fun _ _ => rfl⟩
  intro b f
  cases f with
  | mk c q t => cases c <;> cases b <;> rfl

/-- Claim C9: `destroy_pool` and the facade's `close` never raise, always
return the success outcome, clear the owned handle, and a second call on the
resulting cleared state is a no-op with the same successful outcome. -/
theorem close_never_raises_clears_and_is_idempotent :
    (∀ b s, destroyPool b s = .ok (⟨none⟩, 0)) ∧
    (∀ b b' s, destroyPool b' (⟨none⟩ : ConnMgrState) = destroyPool b s) ∧
    (∀ b f, sqlCloseModel b f = .ok sqlFacadeClosed) ∧
    (∀ b, sqlCloseModel b sqlFacadeClosed = .ok sqlFacadeClosed) := by
  refine ⟨?_, ?_, ?_, ?_⟩
  · intro b s; cases s with
    | mk c => cases c <;> cases b <;> rfl
  · intro b b' s
    cases s with
    | mk c => cases c <;> cases b <;> cases b' <;> rfl
  · intro b f
    cases f with
    | mk c q t => cases c <;> cases b <;> rfl
  · intro b; cases b <;> rfl

/-- For a row no longer than the column list, the reshaped record carries
exactly the row's own cells, keyed by the first `row.length` column names. -/
theorem beautifyRecord_short (row : List PyVal) :
    ∀ cols : List (String × List String), row.length ≤ cols.length →
      (beautifyRecord cols row).map Prod.fst = (cols.take row.length).map Prod.fst ∧
      (beautifyRecord cols row).map Prod.snd = row := by
  induction row with
  | nil =>
    intro cols h
    cases cols <;> simp [beautifyRecord]
  | cons x xs ih =>
    intro cols h
    cases cols with
    | nil => simp at h
    | cons c cs =>
      have h' : xs.length ≤ cs.length := by
        simp only [List.length_cons] at h; omega
      obtain ⟨h1, h2⟩ := ih cs h'
      simp [beautifyRecord, h1, h2]

/-- Claim C6: `beautify_table` returns the error sentinel when the schema or
the row list is empty, and a row strictly shorter than the schema is
reshaped into a record keyed by the first `row.length` column names carrying
exactly the row's own cells, without failing. -/
theorem beautify_table_empty_error_and_short_rows (err : Int)
    (cols : List (String × List String)) (rows : List (List PyVal))
    (row : List PyVal) (hcols : cols.length ≠ 0) (hrows : rows.length ≠ 0)
    (hmem : row ∈ rows) (hshort : row.length < cols.length) :
    (∀ (e : Int) (rs : List (List PyVal)), beautifyTable e [] rs = .errCode e) ∧
    (∀ (e : Int) (cs : List (String × List String)), beautifyTable e cs [] = .errCode e) ∧
    (∃ t, beautifyTable err cols rows = .rows t ∧
      beautifyRecord cols row ∈ t ∧
      (beautifyRecord cols row).length = row.length ∧
      (beautifyRecord cols row).map Prod.fst = (cols.take row.length).map Prod.fst ∧
      (beautifyRecord cols row).map Prod.snd = row) := by
  refine ⟨?_, ?_, ?_⟩
  · intro e rs; simp [beautifyTable]
  · intro e cs
    unfold beautifyTable
    split
    · rfl
    · rfl
  · have hc : (cols.length == 0) = false := by
      simp only [beq_eq_false_iff_ne, ne_eq]; exact hcols
    have hr : (rows.length == 0) = false := by
      simp only [beq_eq_false_iff_ne, ne_eq]; exact hrows
    have hrec := beautifyRecord_short row cols (le_of_lt hshort)
    refine ⟨rows.map (beautifyRecord cols), ?_, ?_, ?_, hrec.1, hrec.2⟩
    · simp [beautifyTable, hc, hr]
    · exact List.mem_map_of_mem _ hmem
    · have := congrArg List.length hrec.2
      simpa using this

/-- Witness for the C6 theorem: schema of two columns, one one-cell row. -/
theorem beautify_table_empty_error_and_short_rows_witness :
    [("id", ([] : List String)), ("name", [])].length ≠ 0 ∧
    ([[PyVal.vInt 7]] : List (List PyVal)).length ≠ 0 ∧
    [PyVal.vInt 7].length < [("id", ([] : List String)), ("name", [])].length ∧
    (∃ t, beautifyTable 84 [("id", []), ("name", [])] [[.vInt 7]] = .rows t ∧
      beautifyRecord [("id", []), ("name", [])] [.vInt 7] ∈ t ∧
      (beautifyRecord [("id", []), ("name", [])] [.vInt 7]).length =
        [PyVal.vInt 7].length ∧
      (beautifyRecord [("id", []), ("name", [])] [.vInt 7]).map Prod.fst =
        ([("id", ([] : List String)), ("name", [])].take [PyVal.vInt 7].length).map
          Prod.fst ∧
      (beautifyRecord [("id", []), ("name", [])] [.vInt 7]).map Prod.snd =
        [PyVal.vInt 7]) := by
  refine ⟨by decide, by decide, by decide, ?_⟩
  exact (beautify_table_empty_error_and_short_rows 84 _ _ _ (by decide) (by decide)
    (List.mem_cons_self _ _) (by decide)).2.2

/-- Looking a key up after a dict assignment: hit on the assigned key or on
the previous contents. -/
theorem dictContains_assocSet (m : List (String × List PyVal)) (k' : String)
    (v : List PyVal) (k : String) :
    dictContains (assocSet m k' v) k = ((k' == k) || dictContains m k) := by
  induction m with
  | nil => simp [assocSet, dictContains]
  | cons p t ih =>
    cases p with
    | mk pk pw =>
      by_cases h : pk == k'
      · have hpk := beq_iff_eq.mp h
        subst hpk
        simp only [assocSet, dictContains, beq_self_eq_true, if_true, List.any_cons]
        cases hk : (pk == k) <;> simp [dictContains, hk]
      · have hb : (pk == k') = false := by
          cases hx : (pk == k') with
          | true => exact absurd hx h
          | false => rfl
        simp only [assocSet, hb, Bool.false_eq_true, if_false, dictContains,
          List.any_cons]
        rw [show (assocSet t k' v).any (fun p => p.1 == k) =
              dictContains (assocSet t k' v) k from rfl, ih]
        cases hk : (pk == k) <;> cases hk2 : (k' == k) <;>
          simp [dictContains, hk, hk2]

/-- The dict built by the batch upsert path contains a key exactly when some
fetched row's stringified first column equals it. -/
theorem dictContains_buildContentDict (rows : List (List PyVal)) (k : String) :
    dictContains (buildContentDict rows) k = rows.any (fun r => rowKey r == k) := by
  suffices h : ∀ init, dictContains
      (rows.foldl (fun m line => assocSet m (rowKey line) line) init) k =
      (dictContains init k || rows.any (fun r => rowKey r == k)) by
    simpa [buildContentDict, dictContains] using h []
  induction rows with
  | nil => intro init; simp
  | cons r rs ih =>
    intro init
    simp only [List.foldl_cons, List.any_cons]
    rw [ih, dictContains_assocSet]
    cases hd : dictContains init k <;> cases hk : (rowKey r == k) <;> simp [hd, hk]

/-- With the injection gate passed, every call of
`insert_or_update_data_into_table` raises `TypeError` at the initial fetch
handoff, for every engine answer, every input and every would-be status. -/
theorem insertOrUpdate_always_type_errors (engineStatus : Int)
    (fetchAnswer : List (List PyVal)) (risky : List String)
    (now today table : String) (cols : List String) (data : PyVal)
    (hgate : checkIfInjectionsInStrings (pv (.vStr table :: cols.map .vStr)) = false) :
    insertOrUpdateDataIntoTable engineStatus fetchAnswer risky now today table cols
      data = .typeError := by
  have hgate2 : checkIfInjectionsInStrings
      (.vList (pyListOf (.vStr table :: cols.map .vStr))) = false := hgate
  have hb : pyBindKeywordNames runAndFetchAllParamNames fetchCallKwargs = false := rfl
  simp [insertOrUpdateDataIntoTable, pv, hgate2, hb]

/-- Claim C2 (the code-bug evaluation): on a connected facade no upsert ever
updates or inserts anything — the initial fetch is handed to
`run_and_fetch_all` with the undeclared keyword `values`, so the call raises
`TypeError` before a single row is read, for a matching-key row, a fresh-key
row and a batch alike. -/
theorem upsert_type_errors_before_any_row_change :
    pyBindKeywordNames runAndFetchAllParamNames fetchCallKwargs = false ∧
    insertOrUpdateDataIntoTable 0 [[.vInt 1, .vStr "gadget"]] [] "N" "D" "websites"
        ["id", "name"] (pv [.vStr "1", .vStr "gadget-v2"]) = .typeError ∧
    insertOrUpdateDataIntoTable 0 [[.vInt 1, .vStr "gadget"]] [] "N" "D" "websites"
        ["id", "name"] (pv [.vInt 2, .vStr "widget"]) = .typeError ∧
    insertOrUpdateDataIntoTable 0 [[.vInt 1, .vStr "gadget"]] [] "N" "D" "websites"
        ["id", "name"] (pv [pv [.vStr "1", .vStr "v2"], pv [.vInt 2, .vStr "w"]]) =
      .typeError := by
  exact ⟨rfl, rfl, rfl, rfl⟩

/-- Claim C10 (the code-bug evaluation): the batch path cannot discard
failing per-row statuses and report success — even granting the fetch, its
first non-falsy row's delegation raises `TypeError` at the four-positional
`run_editing_command` handoff and aborts the loop (shown on the loop and on
both per-row delegations), and the integrated batch call already raises at
the fetch, so the claim's fetch-success hypothesis is unsatisfiable. -/
theorem upsert_batch_raises_instead_of_success :
    upsertBatchLoop 0 [] "N" "D" "websites" ["id", "name"]
        (buildContentDict [[.vInt 1, .vStr "g"]])
        [pv [.vStr "1", .vStr "x"], pv [.vInt 2, .vStr "y"]] = .typeError ∧
    upsertRowCall 0 [] "N" "D" "websites" ["id", "name"]
        (buildContentDict [[.vInt 1, .vStr "g"]]) (pv [.vStr "1", .vStr "x"]) =
      .typeError ∧
    upsertRowCall 0 [] "N" "D" "websites" ["id", "name"]
        (buildContentDict [[.vInt 1, .vStr "g"]]) (pv [.vInt 2, .vStr "y"]) =
      .typeError ∧
    insertOrUpdateDataIntoTable 0 [[.vInt 1, .vStr "g"]] [] "N" "D" "websites"
        ["id", "name"] (pv [pv [.vStr "1", .vStr "x"], pv [.vInt 2, .vStr "y"]]) =
      .typeError := by
  exact ⟨rfl, rfl, rfl, rfl⟩
